import Mathlib

/-!
Shallow embedding of `explore.py` (query-plan block-access analysis).

The source walks a PostgreSQL execution-plan tree bottom-up, synthesizes a
view per supported operator, rewrites predicate aliases to view names, and
aggregates per-relation sets of physical block ids.  Pure string functions
are translated directly; the database connection is modelled as an abstract
`Database` (rows with block ids and an abstract condition-satisfaction
predicate, a view-creation outcome oracle, and a column-name oracle), and
each engine round trip is recorded in an explicit call log.
-/

namespace Explore

/-- Python `sep.join(xs)` (used as `'AND'.join`, `','.join` in the source). -/
def pyJoin (sep : String) : List String → String
  | [] => ""
  | [x] => x
  | x :: xs => x ++ sep ++ pyJoin sep xs

/-- A value in a plan node's attribute bag (`Dict[str, Any]` in the source).
`null` models Python `None`, which `Node.__getitem__` returns for missing
keys. -/
inductive AttrVal where
  | null
  | str (s : String)
  | int (n : Int)
  | strList (l : List String)
deriving DecidableEq, Repr

/-- ASCII apostrophe, used by the Python `repr` of a string list. -/
def quoteCh : Char := Char.ofNat 39

/-- Python f-string interpolation of an attribute value (`str(x)`):
`None` prints as `None`, a list of strings as its `repr`. -/
def pyStr : AttrVal → String
  | .null => "None"
  | .str s => s
  | .int n => toString n
  | .strList l =>
      "[" ++ pyJoin ", " (l.map fun s => quoteCh.toString ++ s ++ quoteCh.toString) ++ "]"

/-- View an attribute value as Python `Optional[str]`: `None` stays absent,
anything else is passed through (stringified on interpolation). -/
def attrOptStr : AttrVal → Option String
  | .null => none
  | v => some (pyStr v)

/-- View an attribute value as Python `Optional[int]` (`Plan Rows` is an
engine-reported integer; other shapes do not occur in plans). -/
def attrOptInt : AttrVal → Option Int
  | .int n => some n
  | _ => none

/-- Python `dict` lookup (`d[k]` / `d.get(k)`): first (hence only) binding. -/
def dget {κ α : Type} [BEq κ] (m : List (κ × α)) (k : κ) : Option α :=
  (m.find? (fun p => p.1 == k)).map (fun p => p.2)

/-- Python `k in d.keys()`. -/
def dmem {κ α : Type} [BEq κ] (m : List (κ × α)) (k : κ) : Bool :=
  m.any (fun p => p.1 == k)

/-- Python `d[k] = v`: replace the binding in place if present, else append
(dicts preserve insertion order). -/
def dset {κ α : Type} [BEq κ] (m : List (κ × α)) (k : κ) (v : α) : List (κ × α) :=
  if m.any (fun p => p.1 == k) then
    m.map (fun p => if p.1 == k then (k, v) else p)
  else
    m ++ [(k, v)]

/-- `build_select` (explore.py:28-55).  `conditions` arrive as Python
optionals (`[root["Filter"]]` may contain `None`); the source drops the
`None`s, then joins the rest with the literal string `"AND"` — no
surrounding whitespace. -/
def build_select (relation : String) (conditions : List (Option String))
    (order : List String) (limit : Option Int) : String :=
  let query := "SELECT * FROM " ++ relation
  let conditions := conditions.filterMap id
  let query :=
    if conditions.length > 0 then query ++ " WHERE " ++ pyJoin "AND" conditions else query
  let query :=
    if order.length > 0 then query ++ " ORDER BY " ++ pyJoin "," order else query
  match limit with
  | some l => query ++ " LIMIT " ++ toString l
  | none => query

/-- Errors observable from the embedded code paths.  `undefinedObject`
stands for `psycopg2.errors.UndefinedTable`/`UndefinedParameter`; the other
constructors are the Python exceptions of the corresponding names. -/
inductive PyError where
  | undefinedObject
  | otherError
  | stopIteration
  | valueError (msg : String)
  | unsupportedQuery
  | viewNotFound
  | keyError
  | indexError
  | typeError
  | regexError
deriving DecidableEq, Repr

deriving instance DecidableEq for Except

/-- The 16- and 20-space runs that the backslash line continuations inside
`build_join`'s f-strings leave in the emitted SQL (explore.py:92-103). -/
def sp16 : String := "                "

def sp20 : String := "                    "

/-- `build_join` (explore.py:58-103).  Unknown join types raise
`UnsupportedQueryException`; an empty join condition emits a CROSS JOIN. -/
def build_join (relation_inner relation_outer join_cond : String)
    (join_type : AttrVal) (select_cols : List String) : Except PyError String :=
  let jt : Except PyError String :=
    match join_type with
    | .str "Inner" => .ok "INNER"
    | .str "Full" => .ok "FULL OUTER"
    | .str "Left" => .ok "LEFT OUTER"
    | .str "Right" => .ok "RIGHT OUTER"
    | _ => .error .unsupportedQuery
  match jt with
  | .error e => .error e
  | .ok join_type =>
    if join_cond = "" then
      .ok ("(SELECT " ++ pyJoin "," select_cols ++ " " ++ sp16 ++ "FROM " ++ sp20
        ++ relation_inner ++ " " ++ sp16 ++ "CROSS JOIN " ++ relation_outer ++ "); " ++ sp16)
    else
      .ok ("SELECT " ++ pyJoin "," select_cols ++ " " ++ sp16 ++ "FROM " ++ sp20
        ++ relation_inner ++ " " ++ sp16 ++ join_type ++ " JOIN " ++ relation_outer
        ++ " on " ++ join_cond ++ " " ++ sp16)

/-! Regex machinery

The source matches predicates with four fixed `re` patterns.  Each is
embedded as a deterministic scanner over `List Char`; the determinism is
justified because every quantified class excludes the character that must
follow it (a backtracked shorter run always leaves a class character at the
boundary, so only the greedy outcome can succeed).  Recursion is by an
explicit fuel equal to the string length, which each step strictly
consumes. -/

/-- Character class `[a-zA-Z1-9?_]` (the alias class of
`get_aliases_in_condition`; note: no `0`). -/
def isAliasChar (c : Char) : Bool :=
  (c ≥ Char.ofNat 97 && c ≤ Char.ofNat 122) || (c ≥ Char.ofNat 65 && c ≤ Char.ofNat 90)
    || (c ≥ Char.ofNat 49 && c ≤ Char.ofNat 57) || c = Char.ofNat 63 || c = Char.ofNat 95

/-- Character class `[a-zA-Z1-9_]` (identifier class of the join patterns). -/
def isIdentChar (c : Char) : Bool :=
  (c ≥ Char.ofNat 97 && c ≤ Char.ofNat 122) || (c ≥ Char.ofNat 65 && c ≤ Char.ofNat 90)
    || (c ≥ Char.ofNat 49 && c ≤ Char.ofNat 57) || c = Char.ofNat 95

/-- Character class `[a-zA-Z_]` (the filter-alias pattern in the index-scan
branch uses no digits). -/
def isLetterChar (c : Char) : Bool :=
  (c ≥ Char.ofNat 97 && c ≤ Char.ofNat 122) || (c ≥ Char.ofNat 65 && c ≤ Char.ofNat 90)
    || c = Char.ofNat 95

/-- One anchored attempt of `([a-zA-Z1-9?_]+)\.[a-zA-Z1-9_]+`: greedy alias
run, a dot, then a nonempty identifier run.  Returns the captured group and
the remainder after the whole match. -/
def tryAliasMatch (s : List Char) : Option (String × List Char) :=
  let run := s.takeWhile isAliasChar
  if run.isEmpty then none
  else
    match s.drop run.length with
    | d :: rest =>
      if d = Char.ofNat 46 then
        let suffix := rest.takeWhile isIdentChar
        if suffix.isEmpty then none
        else some (String.mk run, rest.drop suffix.length)
      else none
    | [] => none

/-- `re.findall` scanning for the alias pattern: try each position left to
right, resuming after a whole match. -/
def findAliasesFuel : Nat → List Char → List String
  | 0, _ => []
  | _, [] => []
  | fuel + 1, c :: cs =>
    match tryAliasMatch (c :: cs) with
    | some (g, rest) => g :: findAliasesFuel fuel rest
    | none => findAliasesFuel fuel cs

/-- `get_aliases_in_condition` (explore.py:119-135): the set of aliases in a
condition; modelled as the deduplicated match list (first-occurrence
order). -/
def get_aliases_in_condition (cond : String) : List String :=
  (findAliasesFuel cond.data.length cond.data).dedup

/-- ASCII question mark.  The alias class `[a-zA-Z1-9?_]` admits it, and
inside the interpolated pattern `rf"{alias}\."` it is a regex
quantifier, so the substitution model must treat it as one. -/
def qmarkCh : Char := Char.ofNat 63

/-- One token of the interpolated pattern `rf"{alias}\."`: a mandatory
literal character, a greedy optional (`c?`), or a lazy optional (`c??`).
The identifier characters of the alias class are regex-literal; `?` is the
only metacharacter that can occur. -/
inductive RegexTok where
  | lit (c : Char)
  | opt (c : Char)
  | optLazy (c : Char)
deriving DecidableEq, Repr

/-- Parse the alias part of the pattern `rf"{alias}\."` into tokens,
mirroring Python's `re` compiler on this character class: a leading `?`
(or one directly after `c??`) is "nothing to repeat" / "multiple repeat",
i.e. an `re.error`, modelled as `none`.  Each step consumes one to three
characters against one unit of fuel, so fuel equal to the string length
suffices. -/
def parseAliasTokensFuel : Nat → List Char → Option (List RegexTok)
  | _, [] => some []
  | 0, _ :: _ => none
  | fuel + 1, c :: cs =>
    if c = qmarkCh then none
    else
      match cs with
      | [] => some [RegexTok.lit c]
      | q1 :: cs1 =>
        if q1 ≠ qmarkCh then (parseAliasTokensFuel fuel cs).map (RegexTok.lit c :: ·)
        else
          match cs1 with
          | [] => some [RegexTok.opt c]
          | q2 :: cs2 =>
            if q2 ≠ qmarkCh then (parseAliasTokensFuel fuel cs1).map (RegexTok.opt c :: ·)
            else
              match cs2 with
              | [] => some [RegexTok.optLazy c]
              | q3 :: _ =>
                if q3 = qmarkCh then none
                else (parseAliasTokensFuel fuel cs2).map (RegexTok.optLazy c :: ·)

def parseAliasTokens (l : List Char) : Option (List RegexTok) :=
  parseAliasTokensFuel l.length l

/-- Anchored match of a token sequence with full backtracking in Python's
choice order (greedy `?` consumes first, lazy `??` skips first); returns
the remainder after the match. -/
def matchToks : List RegexTok → List Char → Option (List Char)
  | [], s => some s
  | RegexTok.lit c :: ts, s =>
    match s with
    | [] => none
    | d :: rest => if d = c then matchToks ts rest else none
  | RegexTok.opt c :: ts, s =>
    match s with
    | [] => matchToks ts []
    | d :: rest =>
      if d = c then
        match matchToks ts rest with
        | some r => some r
        | none => matchToks ts (d :: rest)
      else matchToks ts (d :: rest)
  | RegexTok.optLazy c :: ts, s =>
    match s with
    | [] => matchToks ts []
    | d :: rest =>
      match matchToks ts (d :: rest) with
      | some r => some r
      | none => if d = c then matchToks ts rest else none

/-- `re.sub` scanning: replace each leftmost, non-overlapping match of the
token pattern by `repl`, resuming after the match.  The patterns in play
always end in the mandatory literal dot, so a match consumes at least one
character and fuel equal to the string length suffices. -/
def subToksFuel (ts : List RegexTok) (repl : List Char) : Nat → List Char → List Char
  | 0, s => s
  | _, [] => []
  | fuel + 1, c :: cs =>
    match matchToks ts (c :: cs) with
    | some rest => repl ++ subToksFuel ts repl fuel rest
    | none => c :: subToksFuel ts repl fuel cs

/-- `re.sub(rf"{alias}\.", f"{view}.", s)` (explore.py:162 and the join
branch): compile the alias into tokens (an `re.error` surfaces for
malformed `?` placement), append the mandatory `\.`, and substitute.  The
replacement template contains no backslash, so it is literal. -/
def pyReSubAlias (al view s : String) : Except PyError String :=
  match parseAliasTokens al.data with
  | none => .error .regexError
  | some ts =>
    .ok (String.mk (subToksFuel (ts ++ [RegexTok.lit (Char.ofNat 46)])
      (view.data ++ [Char.ofNat 46]) s.data.length s.data))

/-- `ViewNotFoundException` / `replace_aliases_with_views` loop
(explore.py:159-163): for each alias, check registration, then substitute
`alias.` by `view.` (an `re.error` from the interpolated pattern
propagates). -/
def replace_aliases_go (views : List (AttrVal × String)) :
    List String → String → Except PyError String
  | [], s => .ok s
  | a :: rest, s =>
    match dget views (AttrVal.str a) with
    | none => .error .viewNotFound
    | some v =>
      match pyReSubAlias a v s with
      | .error e => .error e
      | .ok s2 => replace_aliases_go views rest s2

/-- `replace_aliases_with_views` (explore.py:142-163). -/
def replace_aliases_with_views (statement : String) (views : List (AttrVal × String)) :
    Except PyError String :=
  replace_aliases_go views (get_aliases_in_condition statement) statement

/-- Shared matcher for the right side `([a-zA-Z1-9_]+)\.[a-zA-Z1-9_]+` of
the join patterns, after the literal `" = "`.  Returns
(left, table_right, right_column). -/
def joinMatchRight (left : List Char) (s : List Char) :
    Option (String × String × String) :=
  if (" = ".data).isPrefixOf s then
    let s1 := s.drop 3
    let r3 := s1.takeWhile isIdentChar
    if r3.isEmpty then none
    else
      match s1.drop r3.length with
      | d :: s2 =>
        if d = Char.ofNat 46 then
          let r4 := s2.takeWhile isIdentChar
          if r4.isEmpty then none
          else some (String.mk left, String.mk r3, String.mk r4)
        else none
      | [] => none
  else none

/-- One anchored attempt of
`([a-zA-Z1-9_]+\.?[a-zA-Z1-9_]+) = ([a-zA-Z1-9_]+)\.([a-zA-Z1-9_]+)`
(the shared shape of `condition_is_join` and `alter_join_condition`).
With a dot, the left group is `run.run`; without, the greedy run itself
must have length ≥ 2 (the two `+` classes split it). -/
def tryJoinMatch (s : List Char) : Option (String × String × String) :=
  let r := s.takeWhile isIdentChar
  if r.isEmpty then none
  else
    match s.drop r.length with
    | d :: s2 =>
      if d = Char.ofNat 46 then
        let r2 := s2.takeWhile isIdentChar
        if r2.isEmpty then none
        else joinMatchRight (r ++ Char.ofNat 46 :: r2) (s2.drop r2.length)
      else if r.length ≥ 2 then joinMatchRight r (d :: s2)
      else none
    | [] =>
      if r.length ≥ 2 then joinMatchRight r [] else none

/-- `re.search` scanning for the join pattern. -/
def searchJoinFuel : Nat → List Char → Option (String × String × String)
  | 0, _ => none
  | _, [] => none
  | fuel + 1, c :: cs =>
    match tryJoinMatch (c :: cs) with
    | some res => some res
    | none => searchJoinFuel fuel cs

/-- First match of the two-sided equality pattern anywhere in `cond`. -/
def searchJoin (cond : String) : Option (String × String × String) :=
  searchJoinFuel cond.data.length cond.data

/-- `condition_is_join` (explore.py:166-190). -/
def condition_is_join (cond : String) : Bool :=
  (searchJoin cond).isSome

/-- `alter_join_condition` (explore.py:193-221): rewrite `L = R.c` into
`( L IN (SELECT c FROM R) )`; `ValueError` when the shape is absent. -/
def alter_join_condition (cond : String) : Except PyError String :=
  match searchJoin cond with
  | none => .error (.valueError ("Unable to find join attributes in condition: " ++ cond))
  | some (left, table_right, right_column) =>
    .ok ("( " ++ left ++ " IN (SELECT " ++ right_column ++ " FROM " ++ table_right ++ ") )")

/-! Plan tree model -/

/-- A plan node (dataclass `Node`, explore.py:748-793): identifier (the
random view name, generated externally at construction), operator kind,
attribute bag, and ordered children. -/
inductive Node where
  | mk (node_id : String) (node_type : String)
      (attributes : List (String × AttrVal)) (children : List Node)

def Node.node_id : Node → String
  | .mk i _ _ _ => i

def Node.node_type : Node → String
  | .mk _ t _ _ => t

def Node.attributes : Node → List (String × AttrVal)
  | .mk _ _ a _ => a

def Node.children : Node → List Node
  | .mk _ _ _ c => c

/-- `Node.__getitem__` (explore.py:780-792): attribute if present, else
Python `None`. -/
def Node.get (n : Node) (attr : String) : AttrVal :=
  match dget n.attributes attr with
  | some v => v
  | none => .null

/-- `get_child_with_attribute` (explore.py:224-240).  The docstring promises
"first node found else None", but the implementation is
`next(child for child in node.children if child[attr_name] == attr_val)`
with no default: when no child matches, `next` raises `StopIteration`
instead of returning `None`. -/
def get_child_with_attribute (node : Node) (attr_name : String) (attr_val : AttrVal) :
    Except PyError Node :=
  match node.children.find? (fun child => child.get attr_name == attr_val) with
  | some c => .ok c
  | none => .error .stopIteration

/-! Engine model

`DatabaseConnection` issues three kinds of statement on behalf of the
traversal.  Their engine-side semantics are abstracted into `Database`;
every round trip is appended to a call log so that re-issued queries are
observable. -/

/-- One stored row of a relation: its physical block id (first coordinate of
`ctid::text::point`) and an abstract predicate telling whether the row
satisfies a given SQL condition string. -/
structure Row where
  blockId : Int
  satisfies : String → Bool

/-- Outcome the engine reports for a `CREATE VIEW` statement. -/
inductive ViewOutcome where
  | ok
  | undefinedObject
  | otherError
deriving DecidableEq, Repr

/-- Static engine semantics: rows per relation, view-creation outcomes, and
`information_schema` column names. -/
structure Database where
  rows : String → List Row
  viewOutcome : String → String → ViewOutcome
  cols : String → List String

/-- A logged engine round trip. -/
inductive EngineCall where
  | blockIds (relation : String) (condition : Option String)
  | createView (name : String) (statement : String)
  | tableCols (table : String)
deriving DecidableEq, Repr

/-- Mutable connection-side state: the call log and the views created so far
(`self.views` on the connection, kept for teardown). -/
structure EngineState where
  log : List EngineCall
  createdViews : List String
deriving DecidableEq, Repr

def EngineState.empty : EngineState := ⟨[], []⟩

/-- `DatabaseConnection.get_relation_block_ids` (explore.py:392-415):
`SELECT DISTINCT (ctid::text::point)[0]::bigint FROM relation [WHERE
condition]` — the distinct block ids of the rows matching the condition
(all rows when no condition is passed). -/
def get_relation_block_ids (db : Database) (st : EngineState)
    (relation_name : String) (condition : Option String) : List Int × EngineState :=
  let matching := (db.rows relation_name).filter fun row =>
    match condition with
    | none => true
    | some c => row.satisfies c
  ((matching.map Row.blockId).dedup,
    { st with log := st.log ++ [.blockIds relation_name condition] })

/-- `DatabaseConnection.create_view` (explore.py:417-427): execute
`CREATE VIEW name AS statement`; on success record the view for teardown,
on failure re-raise after rollback. -/
def create_view (db : Database) (st : EngineState) (view_name statement : String) :
    Except PyError Unit × EngineState :=
  let st := { st with log := st.log ++ [.createView view_name statement] }
  match db.viewOutcome view_name statement with
  | .ok => (.ok (), { st with createdViews := st.createdViews ++ [view_name] })
  | .undefinedObject => (.error .undefinedObject, st)
  | .otherError => (.error .otherError, st)

/-- `DatabaseConnection.get_table_col_names` (explore.py:429-441). -/
def get_table_col_names (db : Database) (st : EngineState) (table_name : String) :
    List String × EngineState :=
  (db.cols table_name, { st with log := st.log ++ [.tableCols table_name] })

/-! Traversal state -/

/-- The mutable fields of `QueryExecutionPlan` that `_get_blocks_accessed`
reads and writes, together with the engine state: the alias → view-name
registry `self.views` (keys are attribute values — the source can register
under a `None` alias) and the relation → block-id-set map
`self._blocks_accessed`. -/
structure TravState where
  engine : EngineState
  views : List (AttrVal × String)
  blocksAccessed : List (String × Finset Int)
deriving DecidableEq

/-- `QueryExecutionPlan._merge_blocks_accessed` (explore.py:481-486): union
into existing entries, insert fresh ones. -/
def merge_blocks_accessed (self : List (String × Finset Int))
    (blocks_accessed : List (String × Finset Int)) : List (String × Finset Int) :=
  blocks_accessed.foldl
    (fun m rb =>
      match dget m rb.1 with
      | some s => dset m rb.1 (s ∪ rb.2)
      | none => m ++ [(rb.1, rb.2)])
    self

/-- Attribute-key constants (explore.py:14-23). -/
def ALIAS : String := "Alias"

def PARENT_RELATIONSHIP : String := "Parent Relationship"

def INDEX_COND : String := "Index Cond"

def RECHECK_COND : String := "Recheck Cond"

def HASH_COND : String := "Hash Cond"

def MERGE_COND : String := "Merge Cond"

def JOIN_TYPE : String := "Join Type"

def SORT_KEY : String := "Sort Key"

/-- Per-node result of one `match` branch of `_get_blocks_accessed`: the
(possibly alias-annotated) node and the branch-local `blocks_accessed`
dict, or a raised exception. -/
abbrev BranchResult :=
  Except PyError (Node × List (String × Finset Int)) × TravState

/-! Per-operator branches of `_get_blocks_accessed` -/

/-- `case "Seq Scan" | "Parallel Seq Scan"` (explore.py:513-536): query all
block ids of the relation with no predicate, then try to create the view
`SELECT * FROM relation [WHERE filter]`; `UndefinedTable`/
`UndefinedParameter` on view creation is swallowed (the full block set was
already obtained). -/
def seqScanCase (db : Database) (n : Node) (st : TravState) : BranchResult :=
  let relName := pyStr (n.get "Relation Name")
  let (ids, eng) := get_relation_block_ids db st.engine relName none
  let blocks : List (String × Finset Int) := [(relName, ids.toFinset)]
  let (res, eng) := create_view db eng n.node_id
    (build_select relName [attrOptStr (n.get "Filter")] [] none)
  match res with
  | .ok _ =>
    let views2 :=
      if n.get ALIAS ≠ .null then dset st.views (n.get ALIAS) n.node_id else st.views
    (.ok (n, blocks), { st with engine := eng, views := views2 })
  | .error .undefinedObject => (.ok (n, blocks), { st with engine := eng })
  | .error e => (.error e, { st with engine := eng })

/-- One anchored attempt of `([a-zA-Z_]+\.)[a-zA-Z_]+` (the filter-alias
pattern of the index branch); the captured group keeps the dot. -/
def tryFilterMatch (s : List Char) : Option (String × List Char) :=
  let run := s.takeWhile isLetterChar
  if run.isEmpty then none
  else
    match s.drop run.length with
    | d :: rest =>
      if d = Char.ofNat 46 then
        let suffix := rest.takeWhile isLetterChar
        if suffix.isEmpty then none
        else some (String.mk (run ++ [Char.ofNat 46]), rest.drop suffix.length)
      else none
    | [] => none

/-- `re.findall` scanning for the filter-alias pattern. -/
def findFilterAliasesFuel : Nat → List Char → List String
  | 0, _ => []
  | _, [] => []
  | fuel + 1, c :: cs =>
    match tryFilterMatch (c :: cs) with
    | some (g, rest) => g :: findFilterAliasesFuel fuel rest
    | none => findFilterAliasesFuel fuel cs

def findFilterAliases (s : String) : List String :=
  findFilterAliasesFuel s.data.length s.data

/-- The `if index_cond is not None:` block of the index branch
(explore.py:546-561): substitute aliases — the `except` clause turns
exactly `ViewNotFoundException` into `UnsupportedQueryException`, while any
other exception (an `re.error` from a malformed interpolated pattern)
propagates — then rewrite a join-shaped condition to membership form. -/
def indexCondRewrite (views : List (AttrVal × String)) (index_cond : AttrVal) :
    Except PyError (Option String) :=
  match index_cond with
  | .null => .ok none
  | v =>
    match replace_aliases_with_views (pyStr v) views with
    | .error .viewNotFound => .error .unsupportedQuery
    | .error e => .error e
    | .ok ic =>
      if condition_is_join ic then
        match alter_join_condition ic with
        | .ok ic2 => .ok (some ic2)
        | .error e => .error e
      else .ok (some ic)

/-- The `if filter is not None:` loop of the index branch
(explore.py:564-569).  `filter.replace(table, self.views[table[:-1]])`
discards its result (str is immutable); the loop's only observable effect
is the `self.views[table[:-1]]` subscript, a KeyError when unregistered. -/
def filterAliasCheck (views : List (AttrVal × String)) (filter : AttrVal) :
    Except PyError Unit :=
  match filter with
  | .null => .ok ()
  | v =>
    let aliases := (findFilterAliases (pyStr v)).dedup
    if aliases.all (fun t => dmem views (.str (String.mk t.data.dropLast))) then .ok ()
    else .error .keyError

/-- `case "Index Scan" | "Index Only Scan" | "Bitmap Heap Scan"`
(explore.py:538-599).  The index (or recheck) condition goes through
`indexCondRewrite` and the filter through `filterAliasCheck`.  Only
`Index Scan` and `Bitmap Heap Scan` issue the filtered block-id query; an
index-only scan contributes no blocks.  An engine-undefined object on view
creation is re-raised as `UnsupportedQueryException`. -/
def indexScanCase (db : Database) (n : Node) (st : TravState) : BranchResult :=
  let index_cond :=
    if n.node_type = "Bitmap Heap Scan" then n.get RECHECK_COND else n.get INDEX_COND
  let filter := n.get "Filter"
  match indexCondRewrite st.views index_cond with
  | .error e => (.error e, st)
  | .ok ic =>
    match filterAliasCheck st.views filter with
    | .error e => (.error e, st)
    | .ok _ =>
      let relName := pyStr (n.get "Relation Name")
      let (blocks, eng) :=
        if n.node_type = "Index Scan" ∨ n.node_type = "Bitmap Heap Scan" then
          let (ids, eng) := get_relation_block_ids db st.engine relName ic
          ([(relName, ids.toFinset)], eng)
        else ([], st.engine)
      let (res, eng) := create_view db eng n.node_id
        (build_select relName [ic, attrOptStr filter] [] none)
      match res with
      | .ok _ =>
        let views2 :=
          if n.get ALIAS ≠ .null then dset st.views (n.get ALIAS) n.node_id else st.views
        (.ok (n, blocks), { st with engine := eng, views := views2 })
      | .error .undefinedObject => (.error .unsupportedQuery, { st with engine := eng })
      | .error e => (.error e, { st with engine := eng })

/-- One anchored attempt of the join-branch pattern
`([a-zA-Z1-9_]+)\.?[a-zA-Z1-9_]+ = ([a-zA-Z1-9_]+)\.?[a-zA-Z1-9_]+`,
returning the (outer, inner) groups and the remainder after the match.
When no dot follows a greedy run, the run itself must split into group and
second class, so the group is the run minus its last character. -/
def tryPairMatch (s : List Char) : Option ((String × String) × List Char) :=
  let r := s.takeWhile isIdentChar
  if r.isEmpty then none
  else
    let afterLeft : Option (String × List Char) :=
      match s.drop r.length with
      | d :: s2 =>
        if d = Char.ofNat 46 then
          let r2 := s2.takeWhile isIdentChar
          if r2.isEmpty then none
          else some (String.mk r, s2.drop r2.length)
        else if r.length ≥ 2 then some (String.mk r.dropLast, d :: s2)
        else none
      | [] => none
    match afterLeft with
    | none => none
    | some (og, s3) =>
      if (" = ".data).isPrefixOf s3 then
        let s4 := s3.drop 3
        let r3 := s4.takeWhile isIdentChar
        if r3.isEmpty then none
        else
          match s4.drop r3.length with
          | d :: s5 =>
            if d = Char.ofNat 46 then
              let r4 := s5.takeWhile isIdentChar
              if r4.isEmpty then
                if r3.length ≥ 2 then some ((og, String.mk r3.dropLast), d :: s5)
                else none
              else some ((og, String.mk r3), s5.drop r4.length)
            else if r3.length ≥ 2 then some ((og, String.mk r3.dropLast), d :: s5)
            else none
          | [] =>
            if r3.length ≥ 2 then some ((og, String.mk r3.dropLast), [])
            else none
      else none

/-- `re.findall` scanning for the join-branch pattern. -/
def findPairsFuel : Nat → List Char → List (String × String)
  | 0, _ => []
  | _, [] => []
  | fuel + 1, c :: cs =>
    match tryPairMatch (c :: cs) with
    | some (pr, rest) => pr :: findPairsFuel fuel rest
    | none => findPairsFuel fuel cs

def findPairs (s : String) : List (String × String) :=
  findPairsFuel s.data.length s.data

/-- The `for outer_alias, inner_alias in matches:` loop of the join branch
(explore.py:646-654): for a nested loop the pair is swapped, then
`re.sub(rf"{inner_alias}\.", f"{inner.node_id}.", ...)` is applied followed
by the outer substitution (the pair groups come from `[a-zA-Z1-9_]` runs,
so pattern compilation cannot fail here, but the model keeps `re.sub`'s
error channel). -/
def joinCondSubst (node_type inner_id outer_id : String) :
    List (String × String) → String → Except PyError String
  | [], cond => .ok cond
  | pr :: rest, cond =>
    let oi := if node_type = "Nested Loop" then (pr.2, pr.1) else (pr.1, pr.2)
    match pyReSubAlias oi.2 inner_id cond with
    | .error e => .error e
    | .ok cond1 =>
      match pyReSubAlias oi.1 outer_id cond1 with
      | .error e => .error e
      | .ok cond2 => joinCondSubst node_type inner_id outer_id rest cond2

/-- `case "Nested Loop" | "Hash Join" | "Merge Join"` (explore.py:602-675).
The `Inner`/`Outer` children are located with `get_child_with_attribute`
(whose `next` raises `StopIteration` when absent — the `is None` /
`ValueError` guards that follow in the source are unreachable); the join
condition's aliases are rewritten to the children's view names, a
column list is computed, and a JOIN view is created with no exception
containment. -/
def joinCase (db : Database) (n : Node) (st : TravState) : BranchResult :=
  match get_child_with_attribute n PARENT_RELATIONSHIP (.str "Inner") with
  | .error e => (.error e, st)
  | .ok inner =>
    match get_child_with_attribute n PARENT_RELATIONSHIP (.str "Outer") with
    | .error e => (.error e, st)
    | .ok outer =>
      let join_cond : AttrVal :=
        if n.node_type = "Nested Loop" then
          if inner.get INDEX_COND ≠ .null then inner.get INDEX_COND else .str ""
        else if n.node_type = "Hash Join" then n.get HASH_COND
        else n.get MERGE_COND
      let jcRes : Except PyError String :=
        if join_cond ≠ .str "" then
          match join_cond with
          | .str jc =>
            -- `if matches is None: raise ValueError` is dead code: findall
            -- returns a (possibly empty) list, never None
            joinCondSubst n.node_type inner.node_id outer.node_id (findPairs jc) jc
          | _ => .error .typeError
        else .ok ""
      match jcRes with
      | .error e => (.error e, st)
      | .ok jc =>
        let (inner_cols, eng) := get_table_col_names db st.engine inner.node_id
        let (outer_cols, eng) := get_table_col_names db eng outer.node_id
        -- list(set(inner_cols).symmetric_difference(outer_cols)); a Python
        -- set has no specified order — modelled in first-occurrence order
        let select_cols :=
          ((inner_cols.filter (fun c => !(outer_cols.contains c)))
            ++ (outer_cols.filter (fun c => !(inner_cols.contains c)))).dedup
        -- source: list(set().intersection(inner_cols, outer_cols)) — the
        -- EMPTY set intersected with the column lists, hence always []
        let cols_intersect : List String := []
        let select_cols :=
          select_cols ++ cols_intersect.map (fun col => inner.node_id ++ "." ++ col)
        match build_join inner.node_id outer.node_id jc (n.get JOIN_TYPE) select_cols with
        | .error e => (.error e, { st with engine := eng })
        | .ok join_statement =>
          let (res, eng) := create_view db eng n.node_id join_statement
          match res with
          | .ok _ => (.ok (n, []), { st with engine := eng })
          | .error e => (.error e, { st with engine := eng })

/-- `case "Gather Merge" | "Gather" | "Hash" | "Materialize" | "Sort" |
"Memoize"` (explore.py:676-701): a pass-through view
`SELECT * FROM child`, annotating the node with the child's alias and
re-pointing that alias at this node's view; an engine-undefined object is
swallowed. -/
def passThroughCase (db : Database) (n : Node) (st : TravState) : BranchResult :=
  match n.children with
  | [] => (.error .indexError, st)
  | child :: _ =>
    let (res, eng) := create_view db st.engine n.node_id
      (build_select child.node_id [] [] none)
    match res with
    | .ok _ =>
      let n2 := Node.mk n.node_id n.node_type
        (dset n.attributes ALIAS (child.get ALIAS)) n.children
      (.ok (n2, []),
        { st with engine := eng, views := dset st.views (child.get ALIAS) n.node_id })
    | .error .undefinedObject => (.ok (n, []), { st with engine := eng })
    | .error e => (.error e, { st with engine := eng })

/-- The source's second `case "Sort"` (explore.py:702-721), which would
apply the node's sort keys as ORDER BY.  It is unreachable: the
pass-through alternative above already lists `"Sort"`, so Python's `match`
never reaches this case. -/
def sortKeyCase (db : Database) (n : Node) (st : TravState) : BranchResult :=
  let sort_key := n.get SORT_KEY
  match n.children with
  | [] => (.error .indexError, st)
  | child :: _ =>
    match sort_key with
    | .strList keys =>
      let (res, eng) := create_view db st.engine n.node_id
        (build_select child.node_id [] keys none)
      match res with
      | .ok _ =>
        let n2 := Node.mk n.node_id n.node_type
          (dset n.attributes ALIAS (child.get ALIAS)) n.children
        (.ok (n2, []),
          { st with engine := eng, views := dset st.views (child.get ALIAS) n.node_id })
      | .error .undefinedObject => (.ok (n, []), { st with engine := eng })
      | .error e => (.error e, { st with engine := eng })
    | _ => (.error .typeError, st)

/-- `case "Limit"` (explore.py:722-740): `SELECT * FROM child LIMIT
plan_rows`, with the same alias annotation and exception containment as a
pass-through node. -/
def limitCase (db : Database) (n : Node) (st : TravState) : BranchResult :=
  let limit := n.get "Plan Rows"
  match n.children with
  | [] => (.error .indexError, st)
  | child :: _ =>
    let (res, eng) := create_view db st.engine n.node_id
      (build_select child.node_id [] [] (attrOptInt limit))
    match res with
    | .ok _ =>
      let n2 := Node.mk n.node_id n.node_type
        (dset n.attributes ALIAS (child.get ALIAS)) n.children
      (.ok (n2, []),
        { st with engine := eng, views := dset st.views (child.get ALIAS) n.node_id })
    | .error .undefinedObject => (.ok (n, []), { st with engine := eng })
    | .error e => (.error e, { st with engine := eng })

/-- The `match root.node_type` dispatch of `_get_blocks_accessed`
(explore.py:511-743), written as the same top-to-bottom alternatives; the
final catch-all does nothing.  The second `"Sort"` test mirrors the
source's shadowed `case "Sort"` and can never fire. -/
def nodeDispatch (db : Database) (n : Node) (st : TravState) : BranchResult :=
  let nt := n.node_type
  if nt = "Seq Scan" ∨ nt = "Parallel Seq Scan" then seqScanCase db n st
  else if nt = "Index Scan" ∨ nt = "Index Only Scan" ∨ nt = "Bitmap Heap Scan" then
    indexScanCase db n st
  else if nt = "Nested Loop" ∨ nt = "Hash Join" ∨ nt = "Merge Join" then joinCase db n st
  else if nt = "Gather Merge" ∨ nt = "Gather" ∨ nt = "Hash" ∨ nt = "Materialize"
      ∨ nt = "Sort" ∨ nt = "Memoize" then passThroughCase db n st
  else if nt = "Sort" then sortKeyCase db n st
  else if nt = "Limit" then limitCase db n st
  else (.ok (n, []), st)

mutual

/-- `QueryExecutionPlan._get_blocks_accessed` (explore.py:494-745): process
all children first (post-order), run the node's dispatch branch, then merge
the branch-local `blocks_accessed` into the session map.  A raised
exception aborts before the merge. -/
def processNode (db : Database) (n : Node) (st : TravState) :
    Except PyError Node × TravState :=
  match n with
  | .mk node_id node_type attributes children =>
    match processChildren db children st with
    | (.error e, st1) => (.error e, st1)
    | (.ok children2, st1) =>
      match nodeDispatch db (Node.mk node_id node_type attributes children2) st1 with
      | (.error e, st2) => (.error e, st2)
      | (.ok (n2, blocks), st2) =>
        (.ok n2,
          { st2 with blocksAccessed := merge_blocks_accessed st2.blocksAccessed blocks })

/-- The `for child in root.children: self._get_blocks_accessed(child, con)`
loop. -/
def processChildren (db : Database) (ns : List Node) (st : TravState) :
    Except PyError (List Node) × TravState :=
  match ns with
  | [] => (.ok [], st)
  | c :: cs =>
    match processNode db c st with
    | (.error e, st1) => (.error e, st1)
    | (.ok c2, st1) =>
      match processChildren db cs st1 with
      | (.error e, st2) => (.error e, st2)
      | (.ok cs2, st2) => (.ok (c2 :: cs2), st2)

end

/-- The per-query session object (`QueryExecutionPlan.__init__`,
explore.py:449-479): the plan tree plus the mutable alias registry, block
map and memoization flag (timings and the static TPC-H alias table are
omitted as inert).  The flag starts `False`. -/
structure QueryExecutionPlan where
  root : Node
  views : List (AttrVal × String)
  blocksAccessed : List (String × Finset Int)
  gotten_blocks_accessed : Bool

def QueryExecutionPlan.init (root : Node) : QueryExecutionPlan :=
  ⟨root, [], [], false⟩

/-- `QueryExecutionPlan.get_blocks_accessed` (explore.py:488-492): return
the cached map when the flag is set, else run the traversal.  Nothing in
the source ever assigns `True` to `_gotten_blocks_accessed`, so the flag is
carried through unchanged. -/
def get_blocks_accessed (db : Database) (qep : QueryExecutionPlan) (eng : EngineState) :
    Except PyError (List (String × Finset Int)) × QueryExecutionPlan × EngineState :=
  if qep.gotten_blocks_accessed then (.ok qep.blocksAccessed, qep, eng)
  else
    match processNode db qep.root ⟨eng, qep.views, qep.blocksAccessed⟩ with
    | (.ok root2, st) =>
      (.ok st.blocksAccessed,
        ⟨root2, st.views, st.blocksAccessed, qep.gotten_blocks_accessed⟩, st.engine)
    | (.error e, st) =>
      (.error e,
        ⟨qep.root, st.views, st.blocksAccessed, qep.gotten_blocks_accessed⟩, st.engine)

/-- The full set of distinct block identifiers of a relation: what the
unfiltered `SELECT DISTINCT (ctid::text::point)[0]::bigint` query returns. -/
def distinctBlockIds (db : Database) (relation : String) : Finset Int :=
  ((db.rows relation).map Row.blockId).toFinset

/-- The block-id queries contained in an engine call log. -/
def blockIdQueries (log : List EngineCall) : List EngineCall :=
  log.filter fun c =>
    match c with
    | .blockIds _ _ => true
    | _ => false

/-! Shared helper lemmas -/

theorem dedup_toFinset {α : Type} [DecidableEq α] (l : List α) :
    l.dedup.toFinset = l.toFinset :=
  List.toFinset.ext_iff.mpr fun _ => List.mem_dedup

/-- Replacing every binding of a present key, then looking the key up,
yields the new value. -/
theorem find?_map_update {α : Type} (k : String) (w : α) :
    ∀ m : List (String × α), m.any (fun p => p.1 == k) = true →
      dget (m.map fun p => if (p.1 == k) = true then (k, w) else p) k = some w := by
  intro m
  induction m with
  | nil => intro h; simp at h
  | cons p rest ih =>
    intro h
    by_cases hp : (p.1 == k) = true
    · simp only [List.map_cons, if_pos hp, dget]
      rw [show List.find? (fun q : String × α => q.1 == k)
            ((k, w) :: rest.map fun p => if (p.1 == k) = true then (k, w) else p)
          = some (k, w) from List.find?_cons_of_pos _ (beq_self_eq_true k)]
      rfl
    · have hr : rest.any (fun q => q.1 == k) = true := by
        simpa [List.any_cons, hp] using h
      simp only [List.map_cons, if_neg hp, dget]
      rw [List.find?_cons_of_neg _ (by simpa using hp)]
      exact ih hr

/-- After a `dict`-style update, looking the key up yields the new value. -/
theorem dget_dset {α : Type} (m : List (String × α)) (k : String) (w : α) :
    dget (dset m k w) k = some w := by
  unfold dset
  by_cases hany : m.any (fun p => p.1 == k)
  · rw [if_pos hany]
    exact find?_map_update k w m hany
  · rw [if_neg hany]
    have hnone : m.find? (fun p => p.1 == k) = none := by
      rw [List.find?_eq_none]
      intro p hp hpk
      exact hany (List.any_eq_true.mpr ⟨p, hp, hpk⟩)
    unfold dget
    rw [List.find?_append, hnone]
    simp

/-- A `?`-free alias compiles to its characters as mandatory literals, at
any sufficient fuel. -/
theorem parseAliasTokensFuel_no_qmark :
    ∀ (fuel : Nat) (l : List Char), l.length ≤ fuel → qmarkCh ∉ l →
      parseAliasTokensFuel fuel l = some (l.map RegexTok.lit) := by
  intro fuel
  induction fuel with
  | zero =>
    intro l hlen _
    have : l = [] := List.eq_nil_of_length_eq_zero (Nat.le_zero.mp hlen)
    subst this
    rfl
  | succ f ih =>
    intro l hlen h
    cases l with
    | nil => rfl
    | cons c cs =>
      have hc : ¬ c = qmarkCh := fun hc => h (hc ▸ List.mem_cons_self c cs)
      have hcs : qmarkCh ∉ cs := fun hm => h (List.mem_cons_of_mem c hm)
      cases cs with
      | nil => simp [parseAliasTokensFuel, hc]
      | cons q1 cs1 =>
        have hq1 : q1 ≠ qmarkCh := fun hq => hcs (hq ▸ List.mem_cons_self q1 cs1)
        have hlen1 : (q1 :: cs1).length ≤ f := by
          simpa [List.length_cons] using Nat.succ_le_succ_iff.mp (by simpa using hlen)
        simp only [parseAliasTokensFuel, if_neg hc, if_pos hq1]
        rw [ih (q1 :: cs1) hlen1 hcs]
        rfl

/-- A `?`-free alias compiles to its characters as mandatory literals. -/
theorem parseAliasTokens_no_qmark (l : List Char) (h : qmarkCh ∉ l) :
    parseAliasTokens l = some (l.map RegexTok.lit) :=
  parseAliasTokensFuel_no_qmark l.length l (Nat.le_refl _) h

/-- An all-literal token sequence matches exactly its character list as a
prefix: a successful match peels it off the front. -/
theorem matchToks_lit :
    ∀ (p : List Char) (s rest : List Char),
      matchToks (p.map RegexTok.lit) s = some rest → s = p ++ rest := by
  intro p
  induction p with
  | nil =>
    intro s rest h
    simp only [List.map_nil, matchToks, Option.some.injEq] at h
    simp [h]
  | cons c p' ih =>
    intro s rest h
    cases s with
    | nil => simp [matchToks] at h
    | cons d s' =>
      simp only [List.map_cons, matchToks] at h
      by_cases hd : d = c
      · rw [if_pos hd] at h
        rw [hd, List.cons_append]
        exact congrArg (c :: ·) (ih s' rest h)
      · rw [if_neg hd] at h
        cases h

/-- Substituting an all-literal pattern by itself is the identity, at any
fuel. -/
theorem subToksFuel_self (p : List Char) : ∀ (fuel : Nat) (s : List Char),
    subToksFuel (p.map RegexTok.lit) p fuel s = s := by
  intro fuel
  induction fuel with
  | zero => intro s; cases s <;> rfl
  | succ f ih =>
    intro s
    cases s with
    | nil => rfl
    | cons c cs =>
      cases hm : matchToks (p.map RegexTok.lit) (c :: cs) with
      | none => simp only [subToksFuel, hm, ih]
      | some rest =>
        simp only [subToksFuel, hm, ih]
        exact (matchToks_lit p (c :: cs) rest hm).symm

/-- For a `?`-free alias, substituting it by itself leaves any string
unchanged (the interpolated pattern is then fully literal). -/
theorem pyReSubAlias_self (a : String) (h : qmarkCh ∉ a.data) (s : String) :
    pyReSubAlias a a s = .ok s := by
  unfold pyReSubAlias
  rw [parseAliasTokens_no_qmark a.data h]
  have hmap : a.data.map RegexTok.lit ++ [RegexTok.lit (Char.ofNat 46)]
      = (a.data ++ [Char.ofNat 46]).map RegexTok.lit := by
    simp
  simp only [hmap, subToksFuel_self]

/-- When every alias in the list is `?`-free, registered, and mapped to
itself, the substitution loop returns the statement unchanged. -/
theorem replace_aliases_go_self (views : List (AttrVal × String)) (l : List String) :
    ∀ s : String,
      (∀ a ∈ l, dget views (AttrVal.str a) = some a ∧ qmarkCh ∉ a.data) →
      replace_aliases_go views l s = .ok s := by
  induction l with
  | nil => intro s _; rfl
  | cons a rest ih =>
    intro s h
    have ha := h a (List.mem_cons_self a rest)
    simp only [replace_aliases_go, ha.1, pyReSubAlias_self a ha.2 s]
    exact ih s fun b hb => h b (List.mem_cons_of_mem a hb)

/-! Claims -/

/-- C8. Merging a partial block-access map that contains an entry for a
relation already present in the session map replaces that entry by the set
union of the two block-id sets (`_merge_blocks_accessed`,
explore.py:481-486); sets cannot hold duplicates, so the result is a union,
not a concatenation. -/
theorem c8_merge_is_set_union (m : List (String × Finset Int)) (R : String)
    (s1 s2 : Finset Int) (h : dget m R = some s1) :
    dget (merge_blocks_accessed m [(R, s2)]) R = some (s1 ∪ s2) := by
  simp only [merge_blocks_accessed, List.foldl_cons, List.foldl_nil, h]
  exact dget_dset m R (s1 ∪ s2)

/-- Witness for C8 at the spec's example: merging `{1,2,3}` and `{3,4}` for
the same relation yields `{1,2,3,4}`. -/
theorem c8_merge_is_set_union_witness :
    dget (merge_blocks_accessed [("r", ({1, 2, 3} : Finset Int))] [("r", {3, 4})]) "r"
      = some ({1, 2, 3} ∪ {3, 4}) :=
  c8_merge_is_set_union [("r", {1, 2, 3})] "r" {1, 2, 3} {3, 4} rfl

/-- C10. `build_select` joins the non-null conditions of the WHERE
clause with the literal string `"AND"` and no surrounding whitespace
(explore.py:49), so two conditions emit `... WHERE c1ANDc2`; a single
condition emits `... WHERE c1`. -/
theorem c10_where_clause_and_concatenation (r c1 c2 : String) :
    build_select r [some c1, some c2] [] none
        = "SELECT * FROM " ++ r ++ " WHERE " ++ c1 ++ "AND" ++ c2
      ∧ build_select r [some c1] [] none = "SELECT * FROM " ++ r ++ " WHERE " ++ c1 := by
  constructor <;> simp [build_select, pyJoin, String.append_assoc]

/-- C9. `alter_join_condition` rewrites the equi-join predicate
`a.id = b.x` into the literal membership shape
`( a.id IN (SELECT x FROM b) )` (explore.py:193-221); when the two-sided
equality shape is absent it raises a `ValueError` with a descriptive
message. -/
theorem c9_membership_rewriting :
    alter_join_condition "a.id = b.x" = .ok "( a.id IN (SELECT x FROM b) )"
      ∧ ∀ cond : String, searchJoin cond = none →
          alter_join_condition cond
            = .error (.valueError ("Unable to find join attributes in condition: " ++ cond)) := by
  refine ⟨rfl, ?_⟩
  intro cond h
  simp [alter_join_condition, h]

/-- Witness for C9's failure half at the shapeless input `"xyz"`. -/
theorem c9_membership_rewriting_witness :
    alter_join_condition "xyz"
      = .error (.valueError ("Unable to find join attributes in condition: " ++ "xyz")) :=
  c9_membership_rewriting.2 "xyz" (by decide)

/-- C4 counterexample. Alias substitution is not idempotent: with the
registry `{a ↦ v}`, the first application rewrites `a.x = 3` to `v.x = 3`,
and the second application fails with `ViewNotFoundException`, because the
substituted view identifier `v` is itself parsed as an alias but is not
registered. -/
theorem c4_not_idempotent_counterexample :
    replace_aliases_with_views "a.x = 3" [(AttrVal.str "a", "v")] = .ok "v.x = 3"
      ∧ replace_aliases_with_views "v.x = 3" [(AttrVal.str "a", "v")]
          = .error .viewNotFound :=
  ⟨rfl, rfl⟩

/-- The registry-fixed-point condition alone is not enough, because a `?`
inside an alias is a quantifier of the interpolated pattern: with registry
`{a? ↦ a?}` the model reproduces
`re.sub(r"a?\.", "a?.", "a?.c") = "a?a?.c"` — the pattern `a?\.` also
matches the bare dot — so a second application rewrites further instead of
returning its input. -/
theorem replace_aliases_question_mark_not_identity :
    replace_aliases_with_views "a?.c" [(AttrVal.str "a?", "a?")] = .ok "a?a?.c" := rfl

/-- C4 amended. If the first application succeeds and every alias occurring
in its output is free of `?`, registered, and mapped to itself by the
registry, then the second application with the same registry returns the
same string (each substitution step is then the identity: the interpolated
pattern is fully literal and replaced by itself).  Both extra hypotheses
are forced: the counterexample above shows an unregistered view identifier
makes the second application fail, and the `?` example above shows a
`?`-bearing alias rewrites further even under an identity registry. -/
theorem c4_idempotent_when_output_aliases_fixed (statement : String)
    (views : List (AttrVal × String)) (s1 : String)
    (h1 : replace_aliases_with_views statement views = .ok s1)
    (h2 : ∀ a ∈ get_aliases_in_condition s1,
        dget views (AttrVal.str a) = some a ∧ qmarkCh ∉ a.data) :
    replace_aliases_with_views s1 views = .ok s1 :=
  replace_aliases_go_self views (get_aliases_in_condition s1) s1 h2

/-- Witness for the amended C4: registry `{a ↦ v, v ↦ v}`; the first
application sends `a.x = 3` to `v.x = 3` (whose only alias, `v`, is
`?`-free and a fixed point of the registry), and the second application
returns it unchanged. -/
theorem c4_idempotent_witness :
    replace_aliases_with_views "v.x = 3" [(AttrVal.str "a", "v"), (AttrVal.str "v", "v")]
      = .ok "v.x = 3" :=
  c4_idempotent_when_output_aliases_fixed "a.x = 3"
    [(AttrVal.str "a", "v"), (AttrVal.str "v", "v")] "v.x = 3" rfl (by decide)

/-- C1. A plan tree consisting solely of one sequential (or parallel
sequential) scan node over relation R issues the block-id query with no
predicate — the `Filter` attribute, like every other attribute, is
unconstrained here and never reaches the query — and, whenever the
analysis returns a map, that map is exactly `R ↦` the full set of distinct
block identifiers of R. -/
theorem c1_seq_scan_queries_all_blocks_unfiltered (db : Database) (id nt : String)
    (attrs : List (String × AttrVal)) (eng : EngineState)
    (hnt : nt = "Seq Scan" ∨ nt = "Parallel Seq Scan") :
    EngineCall.blockIds (pyStr ((Node.mk id nt attrs []).get "Relation Name")) none
        ∈ (get_blocks_accessed db (QueryExecutionPlan.init (Node.mk id nt attrs [])) eng).2.2.log
      ∧ ∀ m, (get_blocks_accessed db (QueryExecutionPlan.init (Node.mk id nt attrs [])) eng).1
            = .ok m →
          m = [(pyStr ((Node.mk id nt attrs []).get "Relation Name"),
                distinctBlockIds db (pyStr ((Node.mk id nt attrs []).get "Relation Name")))] := by
  have hd : nodeDispatch db (Node.mk id nt attrs []) ⟨eng, [], []⟩
      = seqScanCase db (Node.mk id nt attrs []) ⟨eng, [], []⟩ := by
    rcases hnt with h | h <;> simp [nodeDispatch, Node.node_type, h]
  rcases hv : db.viewOutcome (Node.mk id nt attrs []).node_id
      (build_select (pyStr ((Node.mk id nt attrs []).get "Relation Name"))
        [attrOptStr ((Node.mk id nt attrs []).get "Filter")] [] none) with _ | _ | _ <;>
    simp_all [get_blocks_accessed, QueryExecutionPlan.init, processNode, processChildren,
      hd, seqScanCase, get_relation_block_ids, create_view, merge_blocks_accessed, dget,
      distinctBlockIds, dedup_toFinset]

/-- A three-row engine (blocks 0, 1, 0 in relation `t`) on which every view
creation succeeds. -/
def seqDb : Database where
  rows := fun r =>
    if r = "t" then [⟨0, fun _ => true⟩, ⟨1, fun _ => true⟩, ⟨0, fun _ => true⟩] else []
  viewOutcome := fun _ _ => .ok
  cols := fun _ => []

/-- Witness for C1: a single `Seq Scan` over `t` carrying a `Filter`
attribute still issues the unfiltered block-id query and computes the full
block set (`([0, 1, 0] : List Int).toFinset`, i.e. `{0, 1}`). -/
theorem c1_seq_scan_witness :
    EngineCall.blockIds
        (pyStr ((Node.mk "N1" "Seq Scan"
          [("Relation Name", AttrVal.str "t"), ("Filter", AttrVal.str "x = 1")] []).get
            "Relation Name")) none
        ∈ (get_blocks_accessed seqDb
            (QueryExecutionPlan.init (Node.mk "N1" "Seq Scan"
              [("Relation Name", AttrVal.str "t"), ("Filter", AttrVal.str "x = 1")] []))
            EngineState.empty).2.2.log
      ∧ [("t", ([0, 1, 0] : List Int).toFinset)]
          = [(pyStr ((Node.mk "N1" "Seq Scan"
                [("Relation Name", AttrVal.str "t"), ("Filter", AttrVal.str "x = 1")] []).get
                  "Relation Name"),
              distinctBlockIds seqDb
                (pyStr ((Node.mk "N1" "Seq Scan"
                  [("Relation Name", AttrVal.str "t"), ("Filter", AttrVal.str "x = 1")] []).get
                    "Relation Name")))] :=
  ⟨(c1_seq_scan_queries_all_blocks_unfiltered seqDb "N1" "Seq Scan"
      [("Relation Name", AttrVal.str "t"), ("Filter", AttrVal.str "x = 1")]
      EngineState.empty (Or.inl rfl)).1,
   (c1_seq_scan_queries_all_blocks_unfiltered seqDb "N1" "Seq Scan"
      [("Relation Name", AttrVal.str "t"), ("Filter", AttrVal.str "x = 1")]
      EngineState.empty (Or.inl rfl)).2 [("t", ([0, 1, 0] : List Int).toFinset)] rfl⟩

/-- C7. An index-only-scan leaf adds no entry to the block map —
whatever its attributes (in particular its index condition) and whatever
path its processing takes — and issues no block-id query at all; in the
index family only `Index Scan` and `Bitmap Heap Scan` reach the filtered
block-id query. -/
theorem c7_index_only_scan_contributes_no_blocks (db : Database) (id : String)
    (attrs : List (String × AttrVal)) (st : TravState) :
    (processNode db (Node.mk id "Index Only Scan" attrs []) st).2.blocksAccessed
        = st.blocksAccessed
      ∧ blockIdQueries (processNode db (Node.mk id "Index Only Scan" attrs []) st).2.engine.log
          = blockIdQueries st.engine.log := by
  rcases hic : indexCondRewrite st.views ((Node.mk id "Index Only Scan" attrs []).get INDEX_COND)
    with e | ic
  · simp_all [processNode, processChildren, nodeDispatch, Node.node_type, indexScanCase]
  · rcases hf : filterAliasCheck st.views ((Node.mk id "Index Only Scan" attrs []).get "Filter")
      with e | u
    · simp_all [processNode, processChildren, nodeDispatch, Node.node_type, indexScanCase]
    · rcases hv : db.viewOutcome id
          (build_select (pyStr ((Node.mk id "Index Only Scan" attrs []).get "Relation Name"))
            [ic, attrOptStr ((Node.mk id "Index Only Scan" attrs []).get "Filter")] [] none)
        with _ | _ | _ <;>
      simp_all [processNode, processChildren, nodeDispatch, Node.node_type, Node.node_id,
        indexScanCase, create_view, merge_blocks_accessed, blockIdQueries, List.filter_append]

/-- C6. When view creation hits an engine-undefined object: a
sequential scan swallows the failure and keeps the already-computed full
block set; each index-family node (`Index Scan`, `Index Only Scan`,
`Bitmap Heap Scan` — here with no condition attributes, so processing
reaches the view creation) re-raises `UnsupportedQueryException`. -/
theorem c6_undefined_object_swallowed_for_scan_reraised_for_index :
    (∀ (db : Database) (id : String) (attrs : List (String × AttrVal)) (st : TravState),
      db.viewOutcome id
          (build_select (pyStr ((Node.mk id "Seq Scan" attrs []).get "Relation Name"))
            [attrOptStr ((Node.mk id "Seq Scan" attrs []).get "Filter")] [] none)
        = .undefinedObject →
      (processNode db (Node.mk id "Seq Scan" attrs []) st).1
          = .ok (Node.mk id "Seq Scan" attrs [])
        ∧ (processNode db (Node.mk id "Seq Scan" attrs []) st).2.blocksAccessed
            = merge_blocks_accessed st.blocksAccessed
                [(pyStr ((Node.mk id "Seq Scan" attrs []).get "Relation Name"),
                  distinctBlockIds db (pyStr ((Node.mk id "Seq Scan" attrs []).get "Relation Name")))])
    ∧ (∀ (db : Database) (id nt : String) (attrs : List (String × AttrVal)) (st : TravState),
        (nt = "Index Scan" ∨ nt = "Index Only Scan" ∨ nt = "Bitmap Heap Scan") →
        (Node.mk id nt attrs []).get INDEX_COND = .null →
        (Node.mk id nt attrs []).get RECHECK_COND = .null →
        (Node.mk id nt attrs []).get "Filter" = .null →
        db.viewOutcome id
            (build_select (pyStr ((Node.mk id nt attrs []).get "Relation Name"))
              [none, none] [] none)
          = .undefinedObject →
        (processNode db (Node.mk id nt attrs []) st).1 = .error .unsupportedQuery) := by
  constructor
  · intro db id attrs st hv
    simp_all [processNode, processChildren, nodeDispatch, Node.node_type, Node.node_id,
      seqScanCase, get_relation_block_ids, create_view, merge_blocks_accessed,
      distinctBlockIds, dedup_toFinset]
  · intro db id nt attrs st hnt hic hrc hf hv
    rcases hnt with h | h | h <;> subst h <;>
      simp_all [processNode, processChildren, nodeDispatch, Node.node_type, Node.node_id,
        indexScanCase, indexCondRewrite, filterAliasCheck, get_relation_block_ids,
        create_view, attrOptStr]

/-- A one-row engine (block 5 in relation `t`) that reports every view
creation as referencing an undefined object. -/
def undefinedViewDb : Database where
  rows := fun r => if r = "t" then [⟨5, fun _ => true⟩] else []
  viewOutcome := fun _ _ => .undefinedObject
  cols := fun _ => []

/-- Witness for C6: on `undefinedViewDb`, a `Seq Scan` leaf still succeeds
with the full block set, while an `Index Scan` leaf fails with
`UnsupportedQueryException`. -/
theorem c6_undefined_object_witness :
    ((processNode undefinedViewDb
          (Node.mk "W1" "Seq Scan" [("Relation Name", AttrVal.str "t")] [])
          ⟨EngineState.empty, [], []⟩).1
        = .ok (Node.mk "W1" "Seq Scan" [("Relation Name", AttrVal.str "t")] [])
      ∧ (processNode undefinedViewDb
          (Node.mk "W1" "Seq Scan" [("Relation Name", AttrVal.str "t")] [])
          ⟨EngineState.empty, [], []⟩).2.blocksAccessed
        = merge_blocks_accessed []
            [(pyStr ((Node.mk "W1" "Seq Scan" [("Relation Name", AttrVal.str "t")] []).get
                "Relation Name"),
              distinctBlockIds undefinedViewDb
                (pyStr ((Node.mk "W1" "Seq Scan" [("Relation Name", AttrVal.str "t")] []).get
                  "Relation Name")))])
    ∧ (processNode undefinedViewDb
          (Node.mk "W2" "Index Scan" [("Relation Name", AttrVal.str "t")] [])
          ⟨EngineState.empty, [], []⟩).1
        = .error .unsupportedQuery :=
  ⟨c6_undefined_object_swallowed_for_scan_reraised_for_index.1 undefinedViewDb "W1"
      [("Relation Name", AttrVal.str "t")] ⟨EngineState.empty, [], []⟩ rfl,
   c6_undefined_object_swallowed_for_scan_reraised_for_index.2 undefinedViewDb "W2"
      "Index Scan" [("Relation Name", AttrVal.str "t")] ⟨EngineState.empty, [], []⟩
      (Or.inl rfl) rfl rfl rfl rfl⟩

/-- The single-node plan and session used to observe the memoization flag. -/
def seqScanOverT : Node := Node.mk "N1" "Seq Scan" [("Relation Name", AttrVal.str "t")] []

/-- First analysis call of the session (fresh `QueryExecutionPlan`). -/
def firstAnalysisCall :
    Except PyError (List (String × Finset Int)) × QueryExecutionPlan × EngineState :=
  get_blocks_accessed undefinedViewDb (QueryExecutionPlan.init seqScanOverT) EngineState.empty

/-- Second analysis call on the same session object. -/
def secondAnalysisCall :
    Except PyError (List (String × Finset Int)) × QueryExecutionPlan × EngineState :=
  get_blocks_accessed undefinedViewDb firstAnalysisCall.2.1 firstAnalysisCall.2.2

/-- C2 fails on the code (code bug). `_gotten_blocks_accessed` is
initialized to `False` and checked in `get_blocks_accessed`, but no code
path ever sets it to `True`; hence the second call on the same session
re-runs the traversal and re-issues the block-id query (two logged block-id
queries after two calls), instead of returning the cached map without
engine traffic.  The returned map happens to coincide because the re-merge
is a union with itself. -/
theorem c2_second_call_recomputes_and_reissues_queries :
    (blockIdQueries firstAnalysisCall.2.2.log).length = 1
      ∧ (blockIdQueries secondAnalysisCall.2.2.log).length = 2
      ∧ secondAnalysisCall.2.1.gotten_blocks_accessed = false
      ∧ secondAnalysisCall.1 = firstAnalysisCall.1 :=
  ⟨by decide, by decide, by decide, by decide⟩

/-- A rowless engine on which every view creation succeeds. -/
def okDb : Database where
  rows := fun _ => []
  viewOutcome := fun _ _ => .ok
  cols := fun _ => []

/-- A hash-join node whose only child is tagged `Inner` — no `Outer` child. -/
def joinMissingOuter : Node :=
  Node.mk "HJ" "Hash Join" [(HASH_COND, AttrVal.str "(a.x = b.y)")]
    [Node.mk "C1" "Result" [(PARENT_RELATIONSHIP, AttrVal.str "Inner")] []]

/-- C3 fails on the code (code bug). Processing a join node that lacks
an `Outer`-tagged child does fail loudly, but with `StopIteration` raised
by the defaultless `next(...)` inside `get_child_with_attribute` — never
with the documented `ValueError`, whose `is None` guards are unreachable
dead code. -/
theorem c3_missing_outer_raises_stop_iteration_not_value_error :
    (processNode okDb joinMissingOuter ⟨EngineState.empty, [], []⟩).1
        = .error .stopIteration
      ∧ ∀ msg, (processNode okDb joinMissingOuter ⟨EngineState.empty, [], []⟩).1
          ≠ .error (.valueError msg) := by
  have h1 : (processNode okDb joinMissingOuter ⟨EngineState.empty, [], []⟩).1
      = .error .stopIteration := rfl
  refine ⟨h1, ?_⟩
  intro msg h
  rw [h1] at h
  simp at h

/-- Witness for C3 at the message the source's dead `ValueError` branch
would have carried. -/
theorem c3_missing_outer_witness :
    (processNode okDb joinMissingOuter ⟨EngineState.empty, [], []⟩).1
      ≠ .error (.valueError "Cannot find outer node for node type: Hash Join") :=
  c3_missing_outer_raises_stop_iteration_not_value_error.2
    "Cannot find outer node for node type: Hash Join"

/-- A `Sort` node with a sort key, over one child. -/
def sortWithKeyNode : Node :=
  Node.mk "S1" "Sort" [(SORT_KEY, AttrVal.strList ["x DESC"])]
    [Node.mk "CH" "Aggregate" [] []]

/-- C5 fails on the code (code bug). A `Sort` node is captured by the
pass-through alternative (which lists `"Sort"`), so its view is the plain
`SELECT * FROM child` with no ORDER BY (first conjunct); the dedicated
`case "Sort"` that would apply the `Sort Key` is unreachable, and the node
is alias-annotated exactly as a pass-through node (second conjunct).  The
Limit half of the claim does hold: a `Limit` node's view applies the
`Plan Rows` row cap (third conjunct). -/
theorem c5_sort_node_view_lacks_order_by :
    (processNode okDb sortWithKeyNode ⟨EngineState.empty, [], []⟩).2.engine.log
        = [EngineCall.createView "S1" "SELECT * FROM CH"]
      ∧ (processNode okDb sortWithKeyNode ⟨EngineState.empty, [], []⟩).1
          = .ok (Node.mk "S1" "Sort"
              [(SORT_KEY, AttrVal.strList ["x DESC"]), (ALIAS, AttrVal.null)]
              [Node.mk "CH" "Aggregate" [] []])
      ∧ (processNode okDb
            (Node.mk "L1" "Limit" [("Plan Rows", AttrVal.int 7)]
              [Node.mk "CH" "Aggregate" [] []])
            ⟨EngineState.empty, [], []⟩).2.engine.log
          = [EngineCall.createView "L1" "SELECT * FROM CH LIMIT 7"] :=
  ⟨by decide, rfl, by decide⟩

end Explore
